import Mathlib

/-!
Verification of the cache coordination engine in
`src/providers/CachedPhotosProvider/useCachedPhotos.ts` (the `useCachedPhotos`
hook of the swm-photos gallery).

The hook's logic is embedded shallowly: React state updates become explicit
state passing over a `HookState`, the two `useEffect` bodies become functions
from state to state, async functions returning possibly-rejected promises
become `Except`-valued functions, and external collaborators (the render
primitive of `expo-image-manipulator`, the persistent cache service, the
device pixel ratio) become explicit parameters or spec-modelled definitions.
Logical widths (`singleImageSize`, a dp measure) are represented as `Nat`;
nothing proved here depends on their arithmetic, only on their identity.
Effect tracking (render-primitive invocations, store writes, limiter slots)
is threaded through result records so that frame conditions are statable.
-/

/-- The `CachedPhotosLoadingState` union type from `useCachedPhotos.ts`. -/
inductive CachedPhotosLoadingState
  | IDLE
  | RESTORING_FROM_CACHE
  | RESTORED_FROM_CACHE
  | CALCULATING
  | COMPLETED
deriving DecidableEq, Repr

/-- A cache key: the pair that `getPhotoFromCache` / `setPhotoInCache` are
addressed by in `useCachedPhotos.ts` (fields `originalPhotoUri` and
`mipmapWidth`). -/
structure CacheKey where
  originalPhotoUri : String
  mipmapWidth : Nat
deriving DecidableEq, Repr

/-- Modelled from the spec: a `CacheEntry` is `{key, renditionHandle}`
(section 3); `CachedPhotoType` of `cache-service.ts` is not under `src/`,
so it is modelled as the key fields plus the stored rendition URI. -/
structure CachedPhotoType where
  originalPhotoUri : String
  mipmapWidth : Nat
  cacheUri : String
deriving DecidableEq, Repr

/-- A media library photo as consumed by the hook (only its `uri` field is
read by `calculateCachedPhotos`). -/
structure MediaLibraryPhoto where
  uri : String
deriving DecidableEq, Repr

/-- Modelled from the spec: the Persistent Store (section 6) is key/value
storage holding at most one `CacheEntry` per `CacheKey` (section 3
invariant); represented as a duplicate-free-by-construction entry list. -/
abbrev Cache : Type := List CachedPhotoType

/-- Whether a stored entry is the one addressed by `k`. -/
def cacheKeyMatches (k : CacheKey) (e : CachedPhotoType) : Bool :=
  e.originalPhotoUri == k.originalPhotoUri && e.mipmapWidth == k.mipmapWidth

/-- Modelled from the spec: `get(key) -> bytes | absent` of the Persistent
Store; `getPhotoFromCache` of `cache-service.ts` is not under `src/`. -/
def getPhotoFromCache (cache : Cache) (k : CacheKey) : Option CachedPhotoType :=
  List.find? (cacheKeyMatches k) cache

/-- Modelled from the spec: `put(key, bytes) -> void` of the Persistent
Store, overwriting rather than duplicating (section 3 invariant);
`setPhotoInCache` of `cache-service.ts` is not under `src/`. Returns the
created entry, as the hook uses its return value. -/
def setPhotoInCache (cache : Cache) (k : CacheKey) (cacheUri : String) :
    CachedPhotoType × Cache :=
  let entry : CachedPhotoType :=
    { originalPhotoUri := k.originalPhotoUri
      mipmapWidth := k.mipmapWidth
      cacheUri := cacheUri }
  (entry, entry :: List.filter (fun e => !cacheKeyMatches k e) cache)

/-- Modelled from the spec: `clearAll() -> void` of the Persistent Store;
`clearCache` of `cache-service.ts` is not under `src/`. -/
def clearCache : Cache := []

/-- Modelled from the spec: the Restoration Path `restoreAll` (section 4.4)
scans the store for every (source, width) key and returns only the entries
found, missing ones simply absent; `loadAllPhotosFromCache` of
`cache-service.ts` is not under `src/`. -/
def loadAllPhotosFromCache (cache : Cache) (photos : List MediaLibraryPhoto)
    (w : Nat) : List CachedPhotoType :=
  photos.filterMap (fun p => getPhotoFromCache cache ⟨p.uri, w⟩)

/-- The conversion `PixelRatio.getPixelSizeForLayoutSize` (react-native, external): converts
a layout size in dp to device pixels using the device density, here an
opaque `Nat` scale factor. -/
def getPixelSizeForLayoutSize (density : Nat) (layoutSize : Nat) : Nat :=
  density * layoutSize

/-- The render primitive (`ImageManipulator` pipeline inside
`calculateNewCachePhoto`): from a photo URI and a device pixel width,
either the saved rendition URI or a failure. External, so a parameter. -/
def RenderPrimitive : Type := String → Nat → Except String String

deriving instance DecidableEq for Except

/-- Outcome of one `generateCachedPhoto` call, with effect tracking:
the resolved value (or the propagated rejection), the store afterwards,
the key used for both store accesses, the render-primitive invocations
performed as (uri, device pixel width) pairs, the keys written to the
store, and the limiter slots consumed. -/
structure GenResult where
  result : Except String CachedPhotoType
  cache : Cache
  keyUsed : CacheKey
  renderCalls : List (String × Nat)
  writtenKeys : List CacheKey
  limiterSlots : Nat
deriving DecidableEq, Repr

/-- The resolver `generateCachedPhoto` from `useCachedPhotos.ts`: look up the cache by
(photoUri, mipmapWidth); on a hit return the cached entry early; on a miss
run `calculateNewCachePhoto` (render primitive under one limiter slot, at
the density-converted pixel width) and, if it succeeds, persist the result
under the same key. A render failure propagates and nothing is written. -/
def generateCachedPhoto (render : RenderPrimitive) (density : Nat)
    (cache : Cache) (photoUri : String) (mipmapWidth : Nat) : GenResult :=
  let key : CacheKey := ⟨photoUri, mipmapWidth⟩
  match getPhotoFromCache cache key with
  | some cached =>
      { result := .ok cached
        cache := cache
        keyUsed := key
        renderCalls := []
        writtenKeys := []
        limiterSlots := 0 }
  | none =>
      let px := getPixelSizeForLayoutSize density mipmapWidth
      match render photoUri px with
      | .error e =>
          { result := .error e
            cache := cache
            keyUsed := key
            renderCalls := [(photoUri, px)]
            writtenKeys := []
            limiterSlots := 1 }
      | .ok resultUri =>
          let put := setPhotoInCache cache key resultUri
          { result := .ok put.1
            cache := put.2
            keyUsed := key
            renderCalls := [(photoUri, px)]
            writtenKeys := [key]
            limiterSlots := 1 }

example :
    (generateCachedPhoto (fun uri _ => .ok ("file://" ++ uri)) 2 [] "A" 100).writtenKeys
      = [⟨"A", 100⟩] := by decide

example :
    (generateCachedPhoto (fun uri _ => .ok ("file://" ++ uri)) 2
      [⟨"A", 100, "file://A"⟩] "A" 100).renderCalls = [] := by decide

/-- The constant `PROCESSING_BATCH_SIZE_LIMIT` from `useCachedPhotos.ts`. -/
def PROCESSING_BATCH_SIZE_LIMIT : Nat := 25

/-- The constant `CACHE_CALCULATION_PARALLELISM_LIMIT` from `useCachedPhotos.ts`. -/
def CACHE_CALCULATION_PARALLELISM_LIMIT : Nat := 30

/-- The join `Promise.all` over already-settled outcomes: the array of fulfilled
values in input order, or the rejection of a rejected member. -/
def promiseAll : List (Except String CachedPhotoType) →
    Except String (List CachedPhotoType)
  | [] => .ok []
  | .error e :: _ => .error e
  | .ok a :: rest => (promiseAll rest).map (a :: ·)

/-- Result of running every `generateCachedPhoto` of one batch (the mapped
promises all start and run to completion; `Promise.all` only decides what
the awaiter sees): the per-item outcomes in input order, the store after
all of them, and the aggregated effect tracking. -/
structure BatchResult where
  results : List (Except String CachedPhotoType)
  cache : Cache
  renderCalls : List (String × Nat)
  writtenKeys : List CacheKey
deriving DecidableEq, Repr

/-- Run `generateCachedPhoto` for every photo of a batch, threading the
store (concurrent distinct-key writes serialized in input order). -/
def processBatch (render : RenderPrimitive) (density : Nat) (w : Nat) :
    Cache → List MediaLibraryPhoto → BatchResult
  | cache, [] => ⟨[], cache, [], []⟩
  | cache, p :: ps =>
      let r := generateCachedPhoto render density cache p.uri w
      let rest := processBatch render density w r.cache ps
      ⟨r.result :: rest.results, rest.cache,
        r.renderCalls ++ rest.renderCalls, r.writtenKeys ++ rest.writtenKeys⟩

/-- The React state of the hook: `{cachedPhotos, cachedPhotosLoadingState}`. -/
structure HookState where
  cachedPhotos : List CachedPhotoType
  cachedPhotosLoadingState : CachedPhotosLoadingState
deriving DecidableEq, Repr

/-- Outcome of a run of `calculateCachedPhotos`: the hook state after the
last published update, the store, aggregated effect tracking, and — when a
batch's `Promise.all` rejected, aborting the loop — the propagated error. -/
structure CalcOutcome where
  hook : HookState
  cache : Cache
  renderCalls : List (String × Nat)
  writtenKeys : List CacheKey
  aborted : Option String
deriving DecidableEq, Repr

/-- The `while` loop of `calculateCachedPhotos`: take the next
`PROCESSING_BATCH_SIZE_LIMIT`-sized slice, run its resolutions, await them
together; a rejection aborts the loop with no state update published for
that batch; otherwise append the batch to the accumulated list and publish
`COMPLETED` when the accumulated length equals the total photo count, else
`CALCULATING`. -/
def calcLoop (render : RenderPrimitive) (density w total : Nat)
    (remaining : List MediaLibraryPhoto) (hs : HookState) (cache : Cache)
    (calls : List (String × Nat)) (keys : List CacheKey) : CalcOutcome :=
  match remaining with
  | [] => ⟨hs, cache, calls, keys, none⟩
  | x :: xs =>
      let batch := (x :: xs).take PROCESSING_BATCH_SIZE_LIMIT
      let rest := (x :: xs).drop PROCESSING_BATCH_SIZE_LIMIT
      let b := processBatch render density w cache batch
      match promiseAll b.results with
      | .error e =>
          ⟨hs, b.cache, calls ++ b.renderCalls, keys ++ b.writtenKeys, some e⟩
      | .ok newCachedPhotosBatch =>
          let cachedPhotos := hs.cachedPhotos ++ newCachedPhotosBatch
          calcLoop render density w total rest
            ⟨cachedPhotos,
              if cachedPhotos.length = total then .COMPLETED else .CALCULATING⟩
            b.cache (calls ++ b.renderCalls) (keys ++ b.writtenKeys)
termination_by remaining.length
decreasing_by
  simp only [List.length_drop, List.length_cons, PROCESSING_BATCH_SIZE_LIMIT]
  omega

/-- The batch orchestrator `calculateCachedPhotos` from `useCachedPhotos.ts`: batch-process the
whole `mediaLibraryPhotos` list, publishing after each batch; the
`COMPLETED` test compares against `mediaLibraryPhotos.length`. -/
def calculateCachedPhotos (render : RenderPrimitive) (density w : Nat)
    (photos : List MediaLibraryPhoto) (hs : HookState) (cache : Cache) :
    CalcOutcome :=
  calcLoop render density w photos.length photos hs cache [] []

/-- The upstream `stateRestorationStatus` signals checked by the
restoration effect (providers not under `src/`; the effect only tests
them against the literal "RESTORING"). -/
inductive StateRestorationStatus
  | RESTORING
  | SETTLED
deriving DecidableEq, Repr

/-- The upstream `mediaLibraryLoadingState` signal (provider not under
`src/`; the effect only tests it against the literal "COMPLETED"). -/
inductive MediaLibraryLoadingState
  | LOADING
  | COMPLETED
deriving DecidableEq, Repr

/-- The restoration `useEffect` of `useCachedPhotos.ts`: bail out while
upstream state is still restoring or loading, or when the loading state
already left `IDLE`; otherwise scan the cache for the current photos and
width (passing through the transient `RESTORING_FROM_CACHE` state) and
publish the hydrated entries — `RESTORED_FROM_CACHE` on zero hits,
`COMPLETED` when every photo was found, `RESTORED_FROM_CACHE` otherwise.
Returns the hook state after the effect body ran. -/
def restorationEffect (galleryStatus mediaStatus : StateRestorationStatus)
    (mediaLoadingState : MediaLibraryLoadingState) (cache : Cache)
    (photos : List MediaLibraryPhoto) (w : Nat) (hs : HookState) : HookState :=
  if galleryStatus = .RESTORING ∨ mediaStatus = .RESTORING ∨
      mediaLoadingState ≠ .COMPLETED then
    hs
  else if hs.cachedPhotosLoadingState ≠ .IDLE then
    hs
  else
    let cachedPhotos := loadAllPhotosFromCache cache photos w
    if cachedPhotos.length = 0 then
      ⟨[], .RESTORED_FROM_CACHE⟩
    else
      ⟨cachedPhotos,
        if cachedPhotos.length = photos.length then .COMPLETED
        else .RESTORED_FROM_CACHE⟩

/-- The calculation `useEffect` of `useCachedPhotos.ts`: do nothing unless
the loading state is exactly `RESTORED_FROM_CACHE`; otherwise run
`calculateCachedPhotos`. -/
def calculationEffect (render : RenderPrimitive) (density w : Nat)
    (photos : List MediaLibraryPhoto) (hs : HookState) (cache : Cache) :
    CalcOutcome :=
  if hs.cachedPhotosLoadingState ≠ .RESTORED_FROM_CACHE then
    ⟨hs, cache, [], [], none⟩
  else
    calculateCachedPhotos render density w photos hs cache

/-- Result of the synchronous accept/reject part of
`recalculateCachedPhotos` (up to and including the `setState` that enters
`CALCULATING`; the subsequent awaited `calculateCachedPhotos` run is
composed separately). -/
structure RecalcResult where
  accepted : Bool
  hook : HookState
  cache : Cache
deriving DecidableEq, Repr

/-- The trigger `recalculateCachedPhotos` from `useCachedPhotos.ts`, synchronous part:
while `CALCULATING` or `RESTORING_FROM_CACHE` the request is rejected with
a warning and nothing changes; otherwise the whole cache is cleared, the
accumulated list reset to empty, and the state set to `CALCULATING`. -/
def recalculateCachedPhotos (hs : HookState) (cache : Cache) : RecalcResult :=
  if hs.cachedPhotosLoadingState = .CALCULATING ∨
      hs.cachedPhotosLoadingState = .RESTORING_FROM_CACHE then
    ⟨false, hs, cache⟩
  else
    ⟨true, ⟨[], .CALCULATING⟩, clearCache⟩

/-- One restore-then-calculate cycle from a fresh mount (`IDLE`, empty
accumulated list) with upstream providers settled: the restoration effect
followed by the calculation effect, returning the state each published. -/
def restoreCalculateCycle (render : RenderPrimitive) (density w : Nat)
    (photos : List MediaLibraryPhoto) (cache : Cache) :
    HookState × CalcOutcome :=
  let hs := restorationEffect .SETTLED .SETTLED .COMPLETED cache photos w
    ⟨[], .IDLE⟩
  (hs, calculationEffect render density w photos hs cache)

/-- A render primitive that always succeeds, saving under a URI derived
from the photo URI. -/
def okRender : RenderPrimitive := fun uri _ => .ok ("file://cache/" ++ uri)

/-- Store pre-populated with entries for sources A and B only, at width
100 (the scenario of spec section 8). -/
def abCache : Cache :=
  [⟨"A", 100, "file://cache/A"⟩, ⟨"B", 100, "file://cache/B"⟩]

/-- The source list [A, B, C] of the partial-restoration scenario. -/
def abcPhotos : List MediaLibraryPhoto := [⟨"A"⟩, ⟨"B"⟩, ⟨"C"⟩]

/-- Store holding the single entry for source A at width 100 (full
coverage of the one-photo collection `aPhotos`). -/
def aCache : Cache := [⟨"A", 100, "file://cache/A"⟩]

/-- A one-photo source collection. -/
def aPhotos : List MediaLibraryPhoto := [⟨"A"⟩]

/-- A render primitive that fails on photo p0 (unsupported format) and
succeeds on every other photo. -/
def failP0Render : RenderPrimitive :=
  fun uri _ =>
    if uri = "p0" then .error "decode error" else .ok ("file://cache/" ++ uri)

/-- A 26-photo collection p0..p25: one more photo than
`PROCESSING_BATCH_SIZE_LIMIT`, so the loop needs two batches. -/
def p26Photos : List MediaLibraryPhoto :=
  (List.range 26).map (fun i => ⟨"p" ++ toString i⟩)

/-- Modelled from the spec: the state of the Concurrency Limiter (the
`pLimit` instance `cacheCalculationLimiter`; the `p-limit` mechanism is an
external dependency, specified in section 5 as a counting admission gate):
the number of admitted, still-running render jobs and the number of
suspended callers waiting for a slot. -/
structure LimiterState where
  activeCount : Nat
  pendingCount : Nat
deriving DecidableEq, Repr

/-- Modelled from the spec: the transitions of the Concurrency Limiter
(section 5): a caller requests a slot and suspends in the queue; a
suspended caller is admitted only while the active count is strictly below
the configured limit; an admitted job finishes and frees its slot. -/
inductive LimiterStep (limit : Nat) : LimiterState → LimiterState → Prop
  | request (s : LimiterState) :
      LimiterStep limit s ⟨s.activeCount, s.pendingCount + 1⟩
  | grant (s : LimiterState) (hlt : s.activeCount < limit)
      (hq : 0 < s.pendingCount) :
      LimiterStep limit s ⟨s.activeCount + 1, s.pendingCount - 1⟩
  | finish (s : LimiterState) (h : 0 < s.activeCount) :
      LimiterStep limit s ⟨s.activeCount - 1, s.pendingCount⟩

/-- The limiter's start state: no active jobs, no suspended callers. -/
def limiterStart : LimiterState := ⟨0, 0⟩

/-- Limiter states reachable from the start state by any interleaving of
requests, admissions and completions. -/
def LimiterReachable (limit : Nat) (s : LimiterState) : Prop :=
  Relation.ReflTransGen (LimiterStep limit) limiterStart s

/-- A hit: when the key is present the resolver returns the stored entry
and nothing else happens. -/
theorem generateCachedPhoto_hit (render : RenderPrimitive) (density : Nat)
    (cache : Cache) (uri : String) (w : Nat) (c : CachedPhotoType)
    (h : getPhotoFromCache cache ⟨uri, w⟩ = some c) :
    generateCachedPhoto render density cache uri w
      = ⟨.ok c, cache, ⟨uri, w⟩, [], [], 0⟩ := by
  simp [generateCachedPhoto, h]

/-- A successful miss: the resolver renders once at the density-converted
width and persists the result under the key. -/
theorem generateCachedPhoto_miss_ok (render : RenderPrimitive) (density : Nat)
    (cache : Cache) (uri : String) (w : Nat) (r : String)
    (h : getPhotoFromCache cache ⟨uri, w⟩ = none)
    (hr : render uri (getPixelSizeForLayoutSize density w) = .ok r) :
    generateCachedPhoto render density cache uri w
      = ⟨.ok ⟨uri, w, r⟩, (setPhotoInCache cache ⟨uri, w⟩ r).2, ⟨uri, w⟩,
          [(uri, getPixelSizeForLayoutSize density w)], [⟨uri, w⟩], 1⟩ := by
  simp [generateCachedPhoto, h, hr, setPhotoInCache]

/-- A failed miss: the resolver rejects with the render error and leaves
the store untouched. -/
theorem generateCachedPhoto_miss_error (render : RenderPrimitive)
    (density : Nat) (cache : Cache) (uri : String) (w : Nat) (e : String)
    (h : getPhotoFromCache cache ⟨uri, w⟩ = none)
    (hr : render uri (getPixelSizeForLayoutSize density w) = .error e) :
    generateCachedPhoto render density cache uri w
      = ⟨.error e, cache, ⟨uri, w⟩,
          [(uri, getPixelSizeForLayoutSize density w)], [], 1⟩ := by
  simp [generateCachedPhoto, h, hr]

/-- A successfully resolved entry carries the URI of the photo it was
requested for, whether it came from a hit or from a fresh computation. -/
theorem generateCachedPhoto_ok_uri (render : RenderPrimitive) (density : Nat)
    (cache : Cache) (uri : String) (w : Nat) (c : CachedPhotoType)
    (h : (generateCachedPhoto render density cache uri w).result = .ok c) :
    c.originalPhotoUri = uri := by
  cases hf : getPhotoFromCache cache ⟨uri, w⟩ with
  | some d =>
      rw [generateCachedPhoto_hit render density cache uri w d hf] at h
      simp at h
      subst h
      have hf2 : List.find? (cacheKeyMatches ⟨uri, w⟩) cache = some d := hf
      have hm := List.find?_some hf2
      simp [cacheKeyMatches] at hm
      exact hm.1
  | none =>
      cases hr : render uri (getPixelSizeForLayoutSize density w) with
      | error e =>
          rw [generateCachedPhoto_miss_error render density cache uri w e hf hr] at h
          simp at h
      | ok r =>
          rw [generateCachedPhoto_miss_ok render density cache uri w r hf hr] at h
          simp at h
          subst h
          rfl

/-- C7: for every resolution of a (source, width) pair, a cache hit
returns the existing entry with no render-primitive invocation, no
limiter slot consumed and zero store writes (so no render ever happens
for a key that already has an entry), while a miss that computes
successfully performs exactly one store write, under its own key. -/
theorem resolver_frame_conditions (render : RenderPrimitive) (density : Nat)
    (cache : Cache) (uri : String) (w : Nat) :
    (∀ c, getPhotoFromCache cache ⟨uri, w⟩ = some c →
      generateCachedPhoto render density cache uri w
        = ⟨.ok c, cache, ⟨uri, w⟩, [], [], 0⟩) ∧
    (getPhotoFromCache cache ⟨uri, w⟩ = none →
      ∀ r, render uri (getPixelSizeForLayoutSize density w) = .ok r →
        (generateCachedPhoto render density cache uri w).writtenKeys
          = [⟨uri, w⟩]) := by
  constructor
  · intro c hc
    exact generateCachedPhoto_hit render density cache uri w c hc
  · intro hn r hr
    rw [generateCachedPhoto_miss_ok render density cache uri w r hn hr]

/-- Witness for C7: a concrete hit performs no render, consumes no slot
and writes nothing; a concrete successful miss writes exactly once. -/
theorem resolver_frame_conditions_witness :
    generateCachedPhoto okRender 2 aCache "A" 100
      = ⟨.ok ⟨"A", 100, "file://cache/A"⟩, aCache, ⟨"A", 100⟩, [], [], 0⟩ ∧
    (generateCachedPhoto okRender 2 [] "A" 100).writtenKeys = [⟨"A", 100⟩] :=
  ⟨(resolver_frame_conditions okRender 2 aCache "A" 100).1
      ⟨"A", 100, "file://cache/A"⟩ (by decide),
   (resolver_frame_conditions okRender 2 [] "A" 100).2 (by decide)
      "file://cache/A" (by decide)⟩

/-- C8: the cache key used by the resolver for both the lookup and the
write is the pair (source URI, logical width) and is the same for every
device pixel density; the density enters only the pixel width passed to
the render primitive on a miss. -/
theorem cache_key_density_independent (render : RenderPrimitive)
    (d1 d2 : Nat) (cache : Cache) (uri : String) (w : Nat) :
    (generateCachedPhoto render d1 cache uri w).keyUsed
        = (generateCachedPhoto render d2 cache uri w).keyUsed ∧
    (generateCachedPhoto render d1 cache uri w).keyUsed = ⟨uri, w⟩ ∧
    ((generateCachedPhoto render d1 cache uri w).renderCalls = [] ∨
      (generateCachedPhoto render d1 cache uri w).renderCalls
        = [(uri, getPixelSizeForLayoutSize d1 w)]) := by
  have key : ∀ d : Nat, (generateCachedPhoto render d cache uri w).keyUsed
      = ⟨uri, w⟩ := by
    intro d
    cases hf : getPhotoFromCache cache ⟨uri, w⟩ with
    | some c => rw [generateCachedPhoto_hit render d cache uri w c hf]
    | none =>
        cases hr : render uri (getPixelSizeForLayoutSize d w) with
        | error e =>
            rw [generateCachedPhoto_miss_error render d cache uri w e hf hr]
        | ok r => rw [generateCachedPhoto_miss_ok render d cache uri w r hf hr]
  refine ⟨(key d1).trans (key d2).symm, key d1, ?_⟩
  cases hf : getPhotoFromCache cache ⟨uri, w⟩ with
  | some c =>
      rw [generateCachedPhoto_hit render d1 cache uri w c hf]
      exact Or.inl rfl
  | none =>
      cases hr : render uri (getPixelSizeForLayoutSize d1 w) with
      | error e =>
          rw [generateCachedPhoto_miss_error render d1 cache uri w e hf hr]
          exact Or.inr rfl
      | ok r =>
          rw [generateCachedPhoto_miss_ok render d1 cache uri w r hf hr]
          exact Or.inr rfl

/-- C5: a recalculation request while `CALCULATING` or
`RESTORING_FROM_CACHE` is rejected as a strict no-op (state and
accumulated set unchanged), while a request from `IDLE`,
`RESTORED_FROM_CACHE` or `COMPLETED` is accepted. -/
theorem recalculate_busy_rejection (hs : HookState) (cache : Cache) :
    ((hs.cachedPhotosLoadingState = .CALCULATING ∨
        hs.cachedPhotosLoadingState = .RESTORING_FROM_CACHE) →
      recalculateCachedPhotos hs cache = ⟨false, hs, cache⟩) ∧
    ((hs.cachedPhotosLoadingState = .IDLE ∨
        hs.cachedPhotosLoadingState = .RESTORED_FROM_CACHE ∨
        hs.cachedPhotosLoadingState = .COMPLETED) →
      (recalculateCachedPhotos hs cache).accepted = true) := by
  constructor
  · intro h
    simp [recalculateCachedPhotos, h]
  · rintro (h | h | h) <;> simp [recalculateCachedPhotos, h]

/-- Witness for C5: a concrete busy-state request changes nothing and a
concrete request from `COMPLETED` is accepted. -/
theorem recalculate_busy_rejection_witness :
    recalculateCachedPhotos ⟨[], .CALCULATING⟩ aCache
      = ⟨false, ⟨[], .CALCULATING⟩, aCache⟩ ∧
    (recalculateCachedPhotos ⟨[], .COMPLETED⟩ aCache).accepted = true :=
  ⟨(recalculate_busy_rejection ⟨[], .CALCULATING⟩ aCache).1 (Or.inl rfl),
   (recalculate_busy_rejection ⟨[], .COMPLETED⟩ aCache).2 (Or.inr (Or.inr rfl))⟩

/-- C6: an accepted recalculation clears the whole Persistent Store (every
key of every prior epoch afterwards misses) and resets the in-memory
accumulated set to empty while entering `CALCULATING`. -/
theorem recalculate_clears_store (hs : HookState) (cache : Cache)
    (h : hs.cachedPhotosLoadingState ≠ .CALCULATING)
    (h2 : hs.cachedPhotosLoadingState ≠ .RESTORING_FROM_CACHE) :
    recalculateCachedPhotos hs cache = ⟨true, ⟨[], .CALCULATING⟩, clearCache⟩ ∧
    ∀ k : CacheKey,
      getPhotoFromCache (recalculateCachedPhotos hs cache).cache k = none := by
  have hb : ¬(hs.cachedPhotosLoadingState = .CALCULATING ∨
      hs.cachedPhotosLoadingState = .RESTORING_FROM_CACHE) := by
    tauto
  constructor
  · simp [recalculateCachedPhotos, hb]
  · intro k
    simp [recalculateCachedPhotos, hb, clearCache, getPhotoFromCache]

/-- Witness for C6: recalculating from `COMPLETED` over a store holding an
entry of a different prior epoch (width 200) discards it: the lookup that
previously hit now misses, and the in-memory set is empty. -/
theorem recalculate_clears_store_witness :
    recalculateCachedPhotos ⟨[⟨"A", 200, "file://cache/A"⟩], .COMPLETED⟩
        [⟨"A", 200, "file://cache/A"⟩]
      = ⟨true, ⟨[], .CALCULATING⟩, clearCache⟩ ∧
    getPhotoFromCache (recalculateCachedPhotos
        ⟨[⟨"A", 200, "file://cache/A"⟩], .COMPLETED⟩
        [⟨"A", 200, "file://cache/A"⟩]).cache ⟨"A", 200⟩ = none :=
  ⟨(recalculate_clears_store ⟨[⟨"A", 200, "file://cache/A"⟩], .COMPLETED⟩
      [⟨"A", 200, "file://cache/A"⟩] (by decide) (by decide)).1,
   (recalculate_clears_store ⟨[⟨"A", 200, "file://cache/A"⟩], .COMPLETED⟩
      [⟨"A", 200, "file://cache/A"⟩] (by decide) (by decide)).2 ⟨"A", 200⟩⟩

/-- C1 (failing scenario evaluated): with the store pre-populated for A
and B only at width 100 and source list [A, B, C], restoration indeed
yields 2 entries and `RESTORED_FROM_CACHE`, and the calculation pass
indeed invokes the render primitive only for C — but because the pass
appends the resolutions of all three photos onto the two restored
entries, it ends with 5 entries (A, B duplicated) and the state stuck at
`CALCULATING` (5 differs from 3), not with 3 entries and `COMPLETED`;
both effects are no-ops from that final state. -/
theorem partial_restoration_duplicates_and_stalls :
    (restoreCalculateCycle okRender 2 100 abcPhotos abCache).1.cachedPhotos.length = 2 ∧
    (restoreCalculateCycle okRender 2 100 abcPhotos abCache).1.cachedPhotosLoadingState
      = .RESTORED_FROM_CACHE ∧
    ((restoreCalculateCycle okRender 2 100 abcPhotos abCache).2.renderCalls.map
        Prod.fst) = ["C"] ∧
    (restoreCalculateCycle okRender 2 100 abcPhotos abCache).2.hook.cachedPhotos.length
      = 5 ∧
    (restoreCalculateCycle okRender 2 100 abcPhotos abCache).2.hook.cachedPhotosLoadingState
      = .CALCULATING ∧
    restorationEffect .SETTLED .SETTLED .COMPLETED
        (restoreCalculateCycle okRender 2 100 abcPhotos abCache).2.cache abcPhotos 100
        (restoreCalculateCycle okRender 2 100 abcPhotos abCache).2.hook
      = (restoreCalculateCycle okRender 2 100 abcPhotos abCache).2.hook ∧
    (calculationEffect okRender 2 100 abcPhotos
        (restoreCalculateCycle okRender 2 100 abcPhotos abCache).2.hook
        (restoreCalculateCycle okRender 2 100 abcPhotos abCache).2.cache).hook
      = (restoreCalculateCycle okRender 2 100 abcPhotos abCache).2.hook := by
  simp +decide [restoreCalculateCycle, restorationEffect, calculationEffect,
    calculateCachedPhotos, calcLoop, processBatch, generateCachedPhoto,
    getPhotoFromCache, setPhotoInCache, cacheKeyMatches, promiseAll,
    loadAllPhotosFromCache, getPixelSizeForLayoutSize, okRender, abCache,
    abcPhotos, PROCESSING_BATCH_SIZE_LIMIT]

/-- C2 (failing scenario evaluated): for an empty source collection the
restore/calculate cycle ends with zero entries but in state
`RESTORED_FROM_CACHE`, not `COMPLETED` — the calculation loop body never
runs, so nothing ever publishes `COMPLETED` — and both effects are
no-ops from that final state, so `COMPLETED` is never reached. -/
theorem empty_collection_stalls_before_completed :
    (restoreCalculateCycle okRender 2 100 [] []).1
      = ⟨[], .RESTORED_FROM_CACHE⟩ ∧
    (restoreCalculateCycle okRender 2 100 [] []).2.hook
      = ⟨[], .RESTORED_FROM_CACHE⟩ ∧
    restorationEffect .SETTLED .SETTLED .COMPLETED [] [] 100
        ⟨[], .RESTORED_FROM_CACHE⟩ = ⟨[], .RESTORED_FROM_CACHE⟩ ∧
    (calculationEffect okRender 2 100 [] ⟨[], .RESTORED_FROM_CACHE⟩ []).hook
      = ⟨[], .RESTORED_FROM_CACHE⟩ := by
  simp +decide [restoreCalculateCycle, restorationEffect, calculationEffect,
    calculateCachedPhotos, calcLoop, loadAllPhotosFromCache]

/-- C3 (counterexample): when restoration finds entries for the whole
collection (here the one-photo collection [A] with its entry stored), the
restoration pass completes directly to `COMPLETED`, not to
`RESTORED_FROM_CACHE`, and no calculation pass runs afterwards — the
calculation effect leaves everything unchanged and performs zero render
invocations, rather than executing a pure-hit pass. -/
theorem full_coverage_restoration_skips_restored_cex :
    restorationEffect .SETTLED .SETTLED .COMPLETED aCache aPhotos 100 ⟨[], .IDLE⟩
      = ⟨[⟨"A", 100, "file://cache/A"⟩], .COMPLETED⟩ ∧
    (⟨[⟨"A", 100, "file://cache/A"⟩], .COMPLETED⟩ : HookState).cachedPhotosLoadingState
      ≠ .RESTORED_FROM_CACHE ∧
    calculationEffect okRender 2 100 aPhotos
        ⟨[⟨"A", 100, "file://cache/A"⟩], .COMPLETED⟩ aCache
      = ⟨⟨[⟨"A", 100, "file://cache/A"⟩], .COMPLETED⟩, aCache, [], [], none⟩ := by
  simp +decide [restorationEffect, calculationEffect, loadAllPhotosFromCache,
    getPhotoFromCache, cacheKeyMatches, aCache, aPhotos]

/-- C3 (amended): when the settled restoration pass finds no entry or
only part of the collection, the state becomes `RESTORED_FROM_CACHE` and
the calculation effect then runs a full calculation pass; but when it
finds entries covering the whole (non-empty) collection, the state
becomes `COMPLETED` directly and no calculation pass runs at all. -/
theorem restoration_transition_amended (cache : Cache)
    (photos : List MediaLibraryPhoto) (w density : Nat)
    (render : RenderPrimitive) :
    ((loadAllPhotosFromCache cache photos w).length = 0 ∨
        (loadAllPhotosFromCache cache photos w).length ≠ photos.length →
      (restorationEffect .SETTLED .SETTLED .COMPLETED cache photos w
          ⟨[], .IDLE⟩).cachedPhotosLoadingState = .RESTORED_FROM_CACHE ∧
      calculationEffect render density w photos
          (restorationEffect .SETTLED .SETTLED .COMPLETED cache photos w
            ⟨[], .IDLE⟩) cache
        = calculateCachedPhotos render density w photos
            (restorationEffect .SETTLED .SETTLED .COMPLETED cache photos w
              ⟨[], .IDLE⟩) cache) ∧
    (0 < (loadAllPhotosFromCache cache photos w).length →
      (loadAllPhotosFromCache cache photos w).length = photos.length →
      (restorationEffect .SETTLED .SETTLED .COMPLETED cache photos w
          ⟨[], .IDLE⟩).cachedPhotosLoadingState = .COMPLETED ∧
      calculationEffect render density w photos
          (restorationEffect .SETTLED .SETTLED .COMPLETED cache photos w
            ⟨[], .IDLE⟩) cache
        = ⟨restorationEffect .SETTLED .SETTLED .COMPLETED cache photos w
            ⟨[], .IDLE⟩, cache, [], [], none⟩) := by
  constructor
  · intro h
    by_cases h0 : (loadAllPhotosFromCache cache photos w).length = 0
    · simp [restorationEffect, calculationEffect, h0]
    · have hne : (loadAllPhotosFromCache cache photos w).length ≠ photos.length := by
        tauto
      simp [restorationEffect, calculationEffect, h0, hne]
  · intro hpos heq
    have h0 : ¬(loadAllPhotosFromCache cache photos w).length = 0 := by omega
    have hne : photos ≠ [] := by
      intro hnil
      subst hnil
      simp [loadAllPhotosFromCache] at hpos
    simp [restorationEffect, calculationEffect, h0, heq, hne]

/-- Witness for the amended C3: a zero-hit restoration over an empty
store lands in `RESTORED_FROM_CACHE`, and a full-coverage restoration of
[A] lands in `COMPLETED` with an unchanged no-render calculation effect. -/
theorem restoration_transition_amended_witness :
    (restorationEffect .SETTLED .SETTLED .COMPLETED [] aPhotos 100
        ⟨[], .IDLE⟩).cachedPhotosLoadingState = .RESTORED_FROM_CACHE ∧
    (restorationEffect .SETTLED .SETTLED .COMPLETED aCache aPhotos 100
        ⟨[], .IDLE⟩).cachedPhotosLoadingState = .COMPLETED :=
  ⟨((restoration_transition_amended [] aPhotos 100 2 okRender).1
      (Or.inl (by decide))).1,
   ((restoration_transition_amended aCache aPhotos 100 2 okRender).2
      (by decide) (by decide)).1⟩

/-- C9: in every limiter state reachable from the start state, the number
of simultaneously admitted (in-flight) render jobs never exceeds the
configured maximum `CACHE_CALCULATION_PARALLELISM_LIMIT` (30), however
many callers are queued; admission is only possible strictly below the
limit, so further callers stay suspended until a slot frees. -/
theorem limiter_never_exceeds_limit (s : LimiterState)
    (h : LimiterReachable CACHE_CALCULATION_PARALLELISM_LIMIT s) :
    s.activeCount ≤ CACHE_CALCULATION_PARALLELISM_LIMIT := by
  induction h with
  | refl => simp [limiterStart]
  | tail _ step ih =>
      cases step with
      | request => exact ih
      | grant hlt hq => exact hlt
      | finish ht => exact Nat.le_trans (Nat.sub_le _ _) ih

/-- Witness for C9: after a request and its admission, one job is in
flight, within the limit. -/
theorem limiter_never_exceeds_limit_witness :
    (⟨1, 0⟩ : LimiterState).activeCount ≤ CACHE_CALCULATION_PARALLELISM_LIMIT :=
  limiter_never_exceeds_limit ⟨1, 0⟩
    (Relation.ReflTransGen.tail
      (Relation.ReflTransGen.tail Relation.ReflTransGen.refl
        (LimiterStep.request limiterStart))
      (LimiterStep.grant ⟨0, 1⟩ (by norm_num [CACHE_CALCULATION_PARALLELISM_LIMIT])
        (by norm_num)))

/-- C4 (counterexample): with 26 photos p0..p25 (two batches) over an
empty store and a render primitive failing only on p0, the failure does
not stay isolated to p0: the batch join rejects, so the first batch's 24
successful resolutions are persisted but never appended to the
accumulated set (the hook state is unchanged), the render primitive is
invoked for the 25 photos of the first batch only — p25, in the second
batch, is never processed — and the whole calculation pass aborts with
the error. -/
theorem render_failure_halts_epoch_cex :
    (calculateCachedPhotos failP0Render 2 100 p26Photos
        ⟨[], .CALCULATING⟩ []).aborted = some "decode error" ∧
    (calculateCachedPhotos failP0Render 2 100 p26Photos
        ⟨[], .CALCULATING⟩ []).hook = ⟨[], .CALCULATING⟩ ∧
    (calculateCachedPhotos failP0Render 2 100 p26Photos
        ⟨[], .CALCULATING⟩ []).renderCalls.length = 25 ∧
    ((calculateCachedPhotos failP0Render 2 100 p26Photos
        ⟨[], .CALCULATING⟩ []).renderCalls.map Prod.fst).contains "p25" = false ∧
    (calculateCachedPhotos failP0Render 2 100 p26Photos
        ⟨[], .CALCULATING⟩ []).writtenKeys.length = 24 := by
  simp +decide [calculateCachedPhotos, calcLoop, processBatch,
    generateCachedPhoto, getPhotoFromCache, setPhotoInCache, cacheKeyMatches,
    promiseAll, getPixelSizeForLayoutSize, failP0Render, p26Photos,
    PROCESSING_BATCH_SIZE_LIMIT, List.range_succ]

/-- C4 (amended): a render failure writes no entry for that key and
leaves the store exactly as it was, surfacing as the rejection of that
item's resolution; but the rejection also rejects the batch's joint
await, so whenever any item of the first batch of a pass fails, the
pass publishes nothing (the hook state is unchanged) and aborts without
processing the remaining batches. -/
theorem render_failure_isolation_amended (render : RenderPrimitive)
    (density w : Nat) :
    (∀ (cache : Cache) (uri : String) (e : String),
      getPhotoFromCache cache ⟨uri, w⟩ = none →
      render uri (getPixelSizeForLayoutSize density w) = .error e →
      (generateCachedPhoto render density cache uri w).result = .error e ∧
      (generateCachedPhoto render density cache uri w).writtenKeys = [] ∧
      (generateCachedPhoto render density cache uri w).cache = cache) ∧
    (∀ (photos : List MediaLibraryPhoto) (hs : HookState) (cache : Cache)
        (e : String),
      photos ≠ [] →
      promiseAll (processBatch render density w cache
          (photos.take PROCESSING_BATCH_SIZE_LIMIT)).results = .error e →
      (calculateCachedPhotos render density w photos hs cache).hook = hs ∧
      (calculateCachedPhotos render density w photos hs cache).aborted
        = some e) := by
  constructor
  · intro cache uri e hmiss hfail
    rw [generateCachedPhoto_miss_error render density cache uri w e hmiss hfail]
    exact ⟨rfl, rfl, rfl⟩
  · intro photos hs cache e hne hfail
    cases photos with
    | nil => exact absurd rfl hne
    | cons x xs =>
        rw [calculateCachedPhotos, calcLoop]
        rw [hfail]
        exact ⟨rfl, rfl⟩

/-- Witness for the amended C4: a failing one-photo resolution over an
empty store errors while writing nothing, and a one-photo pass whose
only batch fails aborts with the hook state untouched. -/
theorem render_failure_isolation_amended_witness :
    (generateCachedPhoto failP0Render 2 [] "p0" 100).result
        = .error "decode error" ∧
    (generateCachedPhoto failP0Render 2 [] "p0" 100).writtenKeys = [] ∧
    (calculateCachedPhotos failP0Render 2 100 [⟨"p0"⟩]
        ⟨[], .CALCULATING⟩ []).aborted = some "decode error" :=
  ⟨((render_failure_isolation_amended failP0Render 2 100).1 [] "p0"
      "decode error" (by decide) (by decide)).1,
   ((render_failure_isolation_amended failP0Render 2 100).1 [] "p0"
      "decode error" (by decide) (by decide)).2.1,
   ((render_failure_isolation_amended failP0Render 2 100).2 [⟨"p0"⟩]
      ⟨[], .CALCULATING⟩ [] "decode error" (by decide) (by decide)).2⟩

/-- Unfolding: the batch loop with nothing left publishes nothing new. -/
theorem calcLoop_nil (render : RenderPrimitive) (density w total : Nat)
    (hs : HookState) (cache : Cache) (calls : List (String × Nat))
    (keys : List CacheKey) :
    calcLoop render density w total [] hs cache calls keys
      = ⟨hs, cache, calls, keys, none⟩ := by
  rw [calcLoop]

/-- Unfolding: a rejected batch join aborts the loop with no published
update for that batch. -/
theorem calcLoop_cons_error (render : RenderPrimitive) (density w total : Nat)
    (x : MediaLibraryPhoto) (xs : List MediaLibraryPhoto) (hs : HookState)
    (cache : Cache) (calls : List (String × Nat)) (keys : List CacheKey)
    (e : String)
    (hp : promiseAll (processBatch render density w cache
        ((x :: xs).take PROCESSING_BATCH_SIZE_LIMIT)).results = .error e) :
    calcLoop render density w total (x :: xs) hs cache calls keys
      = ⟨hs,
          (processBatch render density w cache
            ((x :: xs).take PROCESSING_BATCH_SIZE_LIMIT)).cache,
          calls ++ (processBatch render density w cache
            ((x :: xs).take PROCESSING_BATCH_SIZE_LIMIT)).renderCalls,
          keys ++ (processBatch render density w cache
            ((x :: xs).take PROCESSING_BATCH_SIZE_LIMIT)).writtenKeys,
          some e⟩ := by
  rw [calcLoop, hp]

/-- Unfolding: a fulfilled batch join appends the batch's values and
continues with the photos after the batch. -/
theorem calcLoop_cons_ok (render : RenderPrimitive) (density w total : Nat)
    (x : MediaLibraryPhoto) (xs : List MediaLibraryPhoto) (hs : HookState)
    (cache : Cache) (calls : List (String × Nat)) (keys : List CacheKey)
    (nb : List CachedPhotoType)
    (hp : promiseAll (processBatch render density w cache
        ((x :: xs).take PROCESSING_BATCH_SIZE_LIMIT)).results = .ok nb) :
    calcLoop render density w total (x :: xs) hs cache calls keys
      = calcLoop render density w total
          ((x :: xs).drop PROCESSING_BATCH_SIZE_LIMIT)
          ⟨hs.cachedPhotos ++ nb,
            if (hs.cachedPhotos ++ nb).length = total then .COMPLETED
            else .CALCULATING⟩
          (processBatch render density w cache
            ((x :: xs).take PROCESSING_BATCH_SIZE_LIMIT)).cache
          (calls ++ (processBatch render density w cache
            ((x :: xs).take PROCESSING_BATCH_SIZE_LIMIT)).renderCalls)
          (keys ++ (processBatch render density w cache
            ((x :: xs).take PROCESSING_BATCH_SIZE_LIMIT)).writtenKeys) := by
  rw [calcLoop, hp]

/-- When a batch's joint await fulfills, the fulfilled values resolve the
batch's photos position by position, so their source URIs read back the
batch in order. -/
theorem processBatch_ok_uris (render : RenderPrimitive) (density w : Nat) :
    ∀ (batch : List MediaLibraryPhoto) (cache : Cache)
      (l : List CachedPhotoType),
      promiseAll (processBatch render density w cache batch).results = .ok l →
      l.map (fun c => c.originalPhotoUri) = batch.map (fun p => p.uri) := by
  intro batch
  induction batch with
  | nil =>
      intro cache l h
      simp only [processBatch, promiseAll, Except.ok.injEq] at h
      subst h
      simp
  | cons p ps ih =>
      intro cache l h
      simp only [processBatch] at h
      cases hr : (generateCachedPhoto render density cache p.uri w).result with
      | error e =>
          rw [hr] at h
          simp [promiseAll] at h
      | ok c =>
          rw [hr] at h
          simp only [promiseAll] at h
          cases hrest : promiseAll (processBatch render density w
              (generateCachedPhoto render density cache p.uri w).cache
              ps).results with
          | error e =>
              rw [hrest] at h
              simp [Except.map] at h
          | ok lrest =>
              rw [hrest] at h
              simp only [Except.map, Except.ok.injEq] at h
              subst h
              simp only [List.map_cons, List.map]
              rw [generateCachedPhoto_ok_uri render density cache p.uri w c hr,
                ih (generateCachedPhoto render density cache p.uri w).cache
                  lrest hrest]

/-- When the batch loop runs to completion without a rejection, the list
it finally publishes extends the starting accumulated list by one
resolution per remaining photo, in source-list order. -/
theorem calcLoop_completes_in_order (render : RenderPrimitive)
    (density w total : Nat) :
    ∀ (n : Nat) (remaining : List MediaLibraryPhoto),
      remaining.length ≤ n →
      ∀ (hs : HookState) (cache : Cache) (calls : List (String × Nat))
        (keys : List CacheKey),
        (calcLoop render density w total remaining hs cache calls
          keys).aborted = none →
        (calcLoop render density w total remaining hs cache calls
            keys).hook.cachedPhotos.map (fun c => c.originalPhotoUri)
          = hs.cachedPhotos.map (fun c => c.originalPhotoUri)
            ++ remaining.map (fun p => p.uri) := by
  intro n
  induction n with
  | zero =>
      intro remaining hlen hs cache calls keys habort
      have h0 : remaining = [] := List.length_eq_zero.mp (Nat.le_zero.mp hlen)
      subst h0
      rw [calcLoop_nil]
      simp
  | succ m ihm =>
      intro remaining hlen hs cache calls keys habort
      cases remaining with
      | nil =>
          rw [calcLoop_nil]
          simp
      | cons x xs =>
          cases hp : promiseAll (processBatch render density w cache
              ((x :: xs).take PROCESSING_BATCH_SIZE_LIMIT)).results with
          | error e =>
              rw [calcLoop_cons_error render density w total x xs hs cache
                calls keys e hp] at habort
              simp at habort
          | ok nb =>
              rw [calcLoop_cons_ok render density w total x xs hs cache calls
                keys nb hp] at habort ⊢
              have hlen2 :
                  ((x :: xs).drop PROCESSING_BATCH_SIZE_LIMIT).length ≤ m := by
                simp only [List.length_drop, List.length_cons,
                  PROCESSING_BATCH_SIZE_LIMIT]
                simp only [List.length_cons] at hlen
                omega
              rw [ihm ((x :: xs).drop PROCESSING_BATCH_SIZE_LIMIT) hlen2 _ _ _ _
                habort]
              simp only [List.map_append]
              rw [processBatch_ok_uris render density w
                ((x :: xs).take PROCESSING_BATCH_SIZE_LIMIT) cache nb hp]
              rw [List.append_assoc, ← List.map_append, List.take_append_drop]

/-- C10: a calculation pass that starts from an empty accumulated set and
runs to completion publishes exactly one entry per source photo, in
source-collection order — although a batch's resolutions may settle in
any order, the batch join returns them in input-index order and batches
are appended strictly sequentially. -/
theorem calculation_preserves_source_order (render : RenderPrimitive)
    (density w : Nat) (photos : List MediaLibraryPhoto)
    (st : CachedPhotosLoadingState) (cache : Cache)
    (h : (calculateCachedPhotos render density w photos ⟨[], st⟩
      cache).aborted = none) :
    (calculateCachedPhotos render density w photos ⟨[], st⟩
        cache).hook.cachedPhotos.map (fun c => c.originalPhotoUri)
      = photos.map (fun p => p.uri) := by
  have hmain := calcLoop_completes_in_order render density w photos.length
    photos.length photos le_rfl ⟨[], st⟩ cache [] [] h
  simpa [calculateCachedPhotos] using hmain

/-- Witness for C10: a two-photo pass over an empty store publishes the
entries for A then B, in source order. -/
theorem calculation_preserves_source_order_witness :
    (calculateCachedPhotos okRender 2 100 [⟨"A"⟩, ⟨"B"⟩] ⟨[], .CALCULATING⟩
        []).hook.cachedPhotos.map (fun c => c.originalPhotoUri)
      = ["A", "B"] :=
  calculation_preserves_source_order okRender 2 100 [⟨"A"⟩, ⟨"B"⟩]
    .CALCULATING []
    (by simp +decide [calculateCachedPhotos, calcLoop, processBatch,
      generateCachedPhoto, getPhotoFromCache, setPhotoInCache, cacheKeyMatches,
      promiseAll, getPixelSizeForLayoutSize, okRender,
      PROCESSING_BATCH_SIZE_LIMIT])
